import Mathlib

set_option autoImplicit false

/-!
Shallow embedding of `tools/codegen/core/experiments_compiler.{h,cc}`:
the experiment/rollout compilation pipeline of the gRPC experiments
code generator.  `std::map<std::string, T>` is embedded as a key-sorted
association list (`mapInsert` keeps the sorted order that governs C++
map iteration; `mapEmplace` mirrors `std::map::emplace`, which inserts
only when the key is absent).
-/

namespace GrpcCore

def mapFind {α : Type} : List (String × α) → String → Option α
  | [], _ => none
  | (k', v) :: rest, k => if k = k' then some v else mapFind rest k

/-- Lexicographic character-list comparison (the `std::string` ordering that
drives `std::map` key order). -/
def charListLt : List Char → List Char → Bool
  | [], [] => false
  | [], _ :: _ => true
  | _ :: _, [] => false
  | a :: as, b :: bs =>
    if a.toNat = b.toNat then charListLt as bs
    else decide (a.toNat < b.toNat)

/-- Lexicographic string comparison. -/
def strLt (a b : String) : Bool :=
  charListLt a.data b.data

def mapInsert {α : Type} : List (String × α) → String → α → List (String × α)
  | [], k, v => [(k, v)]
  | (k', v') :: rest, k, v =>
    if strLt k k' then (k, v) :: (k', v') :: rest
    else if k = k' then (k, v) :: rest
    else (k', v') :: mapInsert rest k v

/-- Models `std::map::emplace`: insert only if the key is not already present. -/
def mapEmplace {α : Type} (m : List (String × α)) (k : String) (v : α) :
    List (String × α) :=
  match mapFind m k with
  | some _ => m
  | none => mapInsert m k v

theorem mapFind_mapInsert_self {α : Type} (m : List (String × α)) (k : String) (v : α) :
    mapFind (mapInsert m k v) k = some v := by
  induction m with
  | nil => simp [mapInsert, mapFind]
  | cons kv rest ih =>
    obtain ⟨k0, v0⟩ := kv
    by_cases h1 : strLt k k0 = true
    · simp [mapInsert, h1, mapFind]
    · by_cases h2 : k = k0
      · subst h2
        simp [mapInsert, h1, mapFind]
      · simp [mapInsert, h1, h2, mapFind, ih]

theorem mapFind_mapInsert_ne {α : Type} (m : List (String × α)) (k k' : String) (v : α)
    (h : k' ≠ k) : mapFind (mapInsert m k v) k' = mapFind m k' := by
  induction m with
  | nil => simp [mapInsert, mapFind, h]
  | cons kv rest ih =>
    obtain ⟨k0, v0⟩ := kv
    by_cases h1 : strLt k k0 = true
    · simp [mapInsert, h1, mapFind, h]
    · by_cases h2 : k = k0
      · subst h2
        simp [mapInsert, h1, mapFind, h]
      · by_cases h3 : k' = k0 <;> simp [mapInsert, h1, h2, mapFind, h3, ih]

/-- The rollout specification record (`struct RolloutSpecification`). -/
structure RolloutSpecification where
  name : String
  default_value : String
  platform_value : List (String × String)
  requirements : List String
deriving Repr, DecidableEq

/-- The experiment model (`class ExperimentDefinition`), with its private state. -/
structure ExperimentDefinition where
  error : Bool
  name : String
  description : String
  owner : String
  expiry : String
  uses_polling : Bool
  allow_in_fuzzing_config : Bool
  test_tags : List String
  requires : List String
  defaults : List (String × String)
  additional_constraints : List (String × String)
deriving Repr, DecidableEq

/-- The `ExperimentDefinition` constructor: records `error_` when any of
name/description/owner/expiry is empty or when `monitoring_experiment`
does not carry expiry `never-ever`. -/
def ExperimentDefinition.make (name description owner expiry : String)
    (uses_polling allow_in_fuzzing_config : Bool)
    (test_tags requirements : List String) : ExperimentDefinition :=
  let error :=
    name.isEmpty || description.isEmpty || owner.isEmpty || expiry.isEmpty ||
      (name = "monitoring_experiment" && expiry ≠ "never-ever")
  { error := error
    name := name
    description := description
    owner := owner
    expiry := expiry
    uses_polling := uses_polling
    allow_in_fuzzing_config := allow_in_fuzzing_config
    test_tags := test_tags
    requires := requirements
    defaults := []
    additional_constraints := [] }

/-- All-defaulted constructor call `ExperimentDefinition()` (used by
`std::map::operator[]` when the key is absent). -/
def defaultExperimentDefinition : ExperimentDefinition :=
  ExperimentDefinition.make "" "" "" "" false false [] []

/-- Accessor `default_value(platform)`: map lookup with fallback "false". -/
def ExperimentDefinition.default_value (d : ExperimentDefinition) (platform : String) :
    String :=
  (mapFind d.defaults platform).getD "false"

/-- Accessor `additional_constraints(platform)`: map lookup with fallback "false". -/
def ExperimentDefinition.additional_constraints_of (d : ExperimentDefinition)
    (platform : String) : String :=
  (mapFind d.additional_constraints platform).getD "false"

/-- Splitting of a character list at `-` separators. -/
def splitOnDash : List Char → List (List Char)
  | [] => [[]]
  | c :: rest =>
    if c = '-' then [] :: splitOnDash rest
    else
      match splitOnDash rest with
      | [] => [[c]]
      | h :: t => (c :: h) :: t

/-- Reading of a non-empty all-digit character list as a decimal number. -/
def digitsToNat (cs : List Char) : Option Nat :=
  if cs.isEmpty then none
  else if cs.all Char.isDigit then
    some (cs.foldl (fun n c => n * 10 + (c.toNat - 48)) 0)
  else none

/-- Models `absl::ParseTime("%Y-%m-%d", ...)` followed by conversion to a UTC
civil day: accepts `YYYY-MM-DD` with decimal fields, month 1..12, day 1..31,
and returns the (year, month, day) triple. -/
def parseCivilDate (s : String) : Option (Nat × Nat × Nat) :=
  match splitOnDash s.data with
  | [ys, ms, ds] =>
    match digitsToNat ys, digitsToNat ms, digitsToNat ds with
    | some y, some m, some d =>
      if 1 ≤ m ∧ m ≤ 12 ∧ 1 ≤ d ∧ d ≤ 31 then some (y, m, d) else none
    | _, _, _ => none
  | _ => none

/-- Days since the Unix epoch of a civil date (the standard era-based civil-day
algorithm; models the absl civil-time arithmetic, used only by the warning comparisons). -/
def daysFromCivil (y m d : Nat) : Int :=
  let yi : Int := if m ≤ 2 then (y : Int) - 1 else (y : Int)
  let era : Int := (if 0 ≤ yi then yi else yi - 399) / 400
  let yoe : Int := yi - era * 400
  let doy : Int := (153 * ((m : Int) + (if 2 < m then -3 else 9)) + 2) / 5 + (d : Int) - 1
  let doe : Int := yoe * 365 + yoe / 4 - yoe / 100 + doy
  era * 146097 + doe - 719468

/-- Models `ExperimentDefinition::IsValid(check_expiry)` together with the warnings it
logs; `now` is the current time in seconds since the epoch (`absl::Now()`).
Warnings are logged only and never feed back into the returned Bool. -/
def ExperimentDefinition.IsValidLog (d : ExperimentDefinition) (check_expiry : Bool)
    (now : Int) : Bool × List String :=
  if d.error then (false, [])
  else if d.name = "monitoring_experiment" ∧ d.expiry = "never-ever" then (true, [])
  else
    match parseCivilDate d.expiry with
    | none => (false, [])
    | some (y, m, day) =>
      if m = 11 ∨ m = 12 ∨ (m = 1 ∧ day < 15) then (false, [])
      else if !check_expiry then (true, [])
      else
        let expiry_time : Int := daysFromCivil y m day * 86400
        let w1 := if expiry_time < now then ["expired on " ++ d.expiry] else []
        let w2 :=
          if expiry_time > now + 180 * 24 * 3600 then
            ["expires far in the future on " ++ d.expiry]
          else []
        (!d.error, w1 ++ w2)

/-- Models `ExperimentDefinition::IsValid(check_expiry)`: the returned validity. -/
def ExperimentDefinition.IsValid (d : ExperimentDefinition) (check_expiry : Bool)
    (now : Int) : Bool :=
  (d.IsValidLog check_expiry now).1

/-- The value resolved for one platform: the uniform `default_value` when
non-empty, otherwise the `platform_value` entry for that platform (a miss
is the error case of the loop). -/
def rolloutResolveValue (r : RolloutSpecification) (platform : String) :
    Option String :=
  if !r.default_value.isEmpty then some r.default_value
  else mapFind r.platform_value platform

/-- One loop body of the platform resolution: write the default of the platform
and constraint entry (forcing "debug" and the comma-joined requirement list
when the experiment has requirements). -/
def rolloutApplyPlatform (d : ExperimentDefinition) (platform value : String) :
    ExperimentDefinition :=
  if d.requires.isEmpty then
    { d with
      defaults := mapInsert d.defaults platform value
      additional_constraints := mapInsert d.additional_constraints platform "" }
  else
    -- debug is assumed for all rollouts with additional constraints
    { d with
      defaults := mapInsert d.defaults platform "debug"
      additional_constraints :=
        mapInsert d.additional_constraints platform
          (String.intercalate ", " d.requires) }

/-- The per-platform resolution loop inside
`ExperimentDefinition::AddRolloutSpecification` (the `for` over
`platforms_define`).  On a platform with no resolvable value it records the
error and stops, keeping entries already written for earlier platforms. -/
def rolloutPlatformLoop (r : RolloutSpecification) :
    ExperimentDefinition → List (String × String) → Bool × ExperimentDefinition
  | d, [] => (true, d)
  | d, (platform, _) :: rest =>
    match rolloutResolveValue r platform with
    | none => (false, { d with error := true })
    | some default_value =>
      rolloutPlatformLoop r (rolloutApplyPlatform d platform default_value) rest

/-- Models `ExperimentDefinition::AddRolloutSpecification`: refuses on a recorded
error or a name mismatch, appends the requirements of the specification, errors
when neither a uniform default nor any platform value is supplied, then
resolves every platform of `platforms_define`.  Returns the C++ `bool`
result together with the mutated object. -/
def ExperimentDefinition.AddRolloutSpecification (d : ExperimentDefinition)
    (_defaults platforms_define : List (String × String))
    (rollout_attributes : RolloutSpecification) : Bool × ExperimentDefinition :=
  if d.error then (false, d)
  else if rollout_attributes.name ≠ d.name then (false, d)
  else if rollout_attributes.default_value.isEmpty &&
      rollout_attributes.platform_value.isEmpty then
    (false,
      { d with
        requires := d.requires ++ rollout_attributes.requirements
        error := true })
  else
    rolloutPlatformLoop rollout_attributes
      { d with requires := d.requires ++ rollout_attributes.requirements }
      platforms_define

/-- One parsed document node of the experiment catalogue: either a YAML
mapping carrying the required fields, or a non-mapping node (skipped). -/
inductive CatalogueNode where
  | map (name description owner expiry : String)
      (uses_polling allow_in_fuzzing_config : Bool) (test_tags : List String)
  | nonMapping
deriving Repr, DecidableEq

/-- One parsed document node of the rollout specification document.
`default_value`/`platform_value` are `some` exactly when the YAML key
`IsDefined()`; `requirements` holds the `requirements` sequence. -/
inductive RolloutNode where
  | map (name : String) (default_value : Option String)
      (platform_value : Option (List (String × String)))
      (requirements : List String)
  | nonMapping
deriving Repr, DecidableEq

/-- Models `absl::Status` as used by the compiler entry points. -/
inductive AbslStatus where
  | ok
  | invalidArgumentError (msg : String)
  | internalError (msg : String)
deriving Repr, DecidableEq

/-- Models `class ExperimentsCompiler`: the reference tables and the incrementally
built experiment map. -/
structure ExperimentsCompiler where
  defaults : List (String × String)
  platforms_define : List (String × String)
  final_return : List (String × String)
  final_define : List (String × String)
  bzl_list_for_defaults : List (String × String)
  experiment_definitions : List (String × ExperimentDefinition)
deriving Repr, DecidableEq

/-- Models `ExperimentsCompiler::AddExperimentDefinition`, after the YAML text has
been decoded into document nodes (the decoder is the out-of-scope
collaborator; a decode failure returns before any node is processed).  For
every mapping node it constructs an `ExperimentDefinition` and inserts it
with `std::map::emplace`, keyed by name. -/
def ExperimentsCompiler.AddExperimentDefinition (c : ExperimentsCompiler)
    (docs : List CatalogueNode) : AbslStatus × ExperimentsCompiler :=
  let c' := docs.foldl
    (fun c node =>
      match node with
      | .nonMapping => c
      | .map name description owner expiry uses_polling allow_in_fuzzing_config
          test_tags =>
        let experiment_definition :=
          ExperimentDefinition.make name description owner expiry uses_polling
            allow_in_fuzzing_config test_tags []
        { c with
          experiment_definitions :=
            mapEmplace c.experiment_definitions name experiment_definition })
    c
  (.ok, c')

/-- The `RolloutSpecification` the compiler builds for one mapping node: a
defined `default_value` wins (and the requirements of the node are then not
read); otherwise the defined `platform_value` and the requirements are
used. -/
def nodeRolloutSpec (name : String) (dv? : Option String)
    (pv? : Option (List (String × String))) (reqs : List String) :
    RolloutSpecification :=
  match dv? with
  | some dv =>
    { name := name, default_value := dv, platform_value := [],
      requirements := [] }
  | none =>
    { name := name, default_value := "", platform_value := pv?.getD [],
      requirements := reqs }

/-- Models `ExperimentsCompiler::AddRolloutSpecification`, after YAML decoding.
For every mapping node it builds a `RolloutSpecification` via
`nodeRolloutSpec` (erroring when neither `default_value` nor
`platform_value` is defined), fetches `experiment_definitions_[name]`
(`operator[]`: default-constructs and inserts when absent), and invokes the
merger; a merge failure returns an error naming the experiment, keeping the
map mutation. -/
def ExperimentsCompiler.AddRolloutSpecification :
    ExperimentsCompiler → List RolloutNode → AbslStatus × ExperimentsCompiler
  | c, [] => (.ok, c)
  | c, .nonMapping :: rest => c.AddRolloutSpecification rest
  | c, .map name default_value? platform_value? requirements :: rest =>
    if default_value? = none ∧ platform_value? = none then
      (.invalidArgumentError
        ("No default value or platform value for rollout: " ++ name), c)
    else
      let res :=
        ((mapFind c.experiment_definitions name).getD
            defaultExperimentDefinition).AddRolloutSpecification
          c.defaults c.platforms_define
          (nodeRolloutSpec name default_value? platform_value? requirements)
      let c' := { c with
        experiment_definitions :=
          mapInsert c.experiment_definitions name res.2 }
      if res.1 then c'.AddRolloutSpecification rest
      else
        (.invalidArgumentError
          ("Failed to add rollout specification for experiment: " ++ name), c')

/-- ASCII upper-casing of one character (`absl::AsciiStrToUpper` /
`std::toupper` on ASCII input). -/
def asciiToUpper (c : Char) : Char :=
  if 'a' ≤ c ∧ c ≤ 'z' then Char.ofNat (c.toNat - 32) else c

/-- Models `absl::AsciiStrToUpper`. -/
def AsciiStrToUpper (s : String) : String :=
  String.mk (s.data.map asciiToUpper)

/-- Models `ExperimentsOutputGenerator::SnakeToPascal`: capitalize after each
underscore (and at the start), dropping the underscores. -/
def SnakeToPascal (snake_case : String) : String :=
  String.mk
    (snake_case.data.foldl
      (fun (acc : List Char × Bool) c =>
        if c = '_' then (acc.1, true)
        else if acc.2 then (acc.1 ++ [asciiToUpper c], false)
        else (acc.1 ++ [c], false))
      ([], true)).1

/-- Models `GetCopyright()`, with the banner year (taken from `absl::Now()` in the
code) made explicit. -/
def GetCopyright (year : Int) : String :=
  "// Copyright " ++ toString year ++ " The gRPC Authors\n" ++
    "// Licensed under the Apache License, // version 2.0 (the \"License\");\n// you may not use this file except in // compliance with the License.\n// You may obtain a copy of the License at\n// \n//     http://www.apache.org/licenses/LICENSE-2.0\n// \n// Unless required by applicable law or // agreed to in writing, software\n// distributed under the License is // distributed on an \"AS IS\" BASIS,\n// WITHOUT WARRANTIES OR CONDITIONS OF ANY // KIND, either express or implied.\n// See the License for the specific // language governing permissions and\n// limitations under the License.\n//\n//\n//\n"

/-- Models `_GRPC_CODEGEN_PLACEHOLDER_TEXT` / `GetGrpcCodegenPlaceholderText()`. -/
def GetGrpcCodegenPlaceholderText : String :=
  "\n  This file contains the autogenerated parts of the experiments API.\n  \n  It generates two symbols for each experiment.\n  \n  For the experiment named new_car_project, it generates:\n  \n  - a function IsNewCarProjectEnabled() that returns true if the experiment\n    should be enabled at runtime.\n  \n  - a macro GRPC_EXPERIMENT_IS_INCLUDED_NEW_CAR_PROJECT that is defined if the\n    experiment *could* be enabled at runtime.\n  \n  The function is used to determine whether to run the experiment or\n  non-experiment code path.\n  \n  If the experiment brings significant bloat, the macro can be used to avoid\n  including the experiment code path in the binary for binaries that are size\n  sensitive.\n  \n  By default that includes our iOS and Android builds.\n  \n  Finally, a small array is included that contains the metadata for each\n  experiment.\n  \n  A macro, GRPC_EXPERIMENTS_ARE_FINAL, controls whether we fix experiment\n  configuration at build time (if it\x27s defined) or allow it to be tuned at\n  runtime (if it\x27s disabled).\n  \n  If you are using the Bazel build system, that macro can be configured with\n  --define=grpc_experiments_are_final=true\n  "

/-- Models `PutBanner(prefix, lines, output)`: append `prefix ++ line ++ "\n"` per line. -/
def PutBanner (pre : String) (lines : List String) : String :=
  lines.foldl (fun out line => out ++ pre ++ line ++ "\n") ""

/-- Models `_GenerateExperimentsHdrForPlatform`: the per-experiment macro/accessor
lines of the "experiments are final" branch.  `std::map::at` on a missing
default token throws, modelled by `none`. -/
def GenerateExperimentsHdrForPlatform
    (eds : List (String × ExperimentDefinition))
    (final_return final_define : List (String × String)) (platform : String) :
    Option String :=
  eds.foldlM
    (fun out kv => do
      let e := kv.2
      let define_fmt ← mapFind final_define (e.default_value platform)
      let out :=
        if !define_fmt.isEmpty then
          out ++ define_fmt ++ "GRPC_EXPERIMENT_IS_INCLUDED_" ++
            AsciiStrToUpper e.name ++ "\n"
        else out
      let ret ← mapFind final_return (e.default_value platform)
      pure (out ++ "inline bool Is" ++ SnakeToPascal e.name ++
        "Enabled() \x7b return " ++ ret ++ "; \x7d\n"))
    ""

/-- The `#if defined(...)` platform chain of `_GenerateHeader` (every platform
except "posix", with the `first` flag selecting `#if` versus `elif`). -/
def hdrPlatformChain (eds : List (String × ExperimentDefinition))
    (final_return final_define : List (String × String)) :
    List (String × String) → Bool → Option String
  | [], _ => some ""
  | (platform, define) :: rest, first =>
    if platform = "posix" then
      hdrPlatformChain eds final_return final_define rest first
    else do
      let body ← GenerateExperimentsHdrForPlatform eds final_return final_define
        platform
      let tail ← hdrPlatformChain eds final_return final_define rest false
      pure ((if first then "#if defined(" else "elif defined(") ++ define ++
        ")\n" ++ body ++ tail)

/-- Models `ExperimentsOutputGenerator::_GenerateHeader` (the `mode` parameter is
accepted but never used by the body). -/
def GenerateHeaderBody (eds : List (String × ExperimentDefinition))
    (platforms final_return final_define : List (String × String))
    (_mode : String) : Option String := do
  let include_guard := "GRPC_SRC_CORE_LIB_EXPERIMENTS_EXPERIMENTS_H"
  let chain ← hdrPlatformChain eds final_return final_define platforms true
  let posix ← GenerateExperimentsHdrForPlatform eds final_return final_define
    "posix"
  let enumSection := eds.foldl
    (fun out kv =>
      out ++ "  kExperimentId\x7b" ++ SnakeToPascal kv.2.name ++ ",\n")
    ""
  let accessors := eds.foldl
    (fun out kv =>
      out ++ "#define GRPC_EXPERIMENT_IS_INCLUDED_" ++
        AsciiStrToUpper kv.2.name ++ "\n" ++
        "inline bool Is" ++ SnakeToPascal kv.2.name ++
        "Enabled() \x7b return IsExperimentEnabled<kExperimentId" ++
        SnakeToPascal kv.2.name ++ ">(); \x7d\n")
    ""
  pure ("#ifndef " ++ include_guard ++ "\n" ++
    "#define " ++ include_guard ++ "\n" ++
    "#include <grpc/support/port_platform.h>\n" ++
    "#include \"src/core/lib/experiments/config.h\"\n" ++
    "namespace grpc_core \x7b\n" ++
    "#ifdef GRPC_EXPERIMENTS_ARE_FINAL\n" ++
    chain ++
    "\n#else\n" ++ posix ++ "#endif\n" ++
    "\n#else\n" ++
    " enum ExperimentIds \x7b\n" ++
    enumSection ++
    "  \x7bkNumExperiments\x7d\n\x7d;\n" ++
    accessors ++
    "extern const ExperimentMetadatag_experiment_metadata[kNumExperiments];\n" ++
    "#endif\n" ++
    "\x7d  // namespace grpc_core\n" ++
    "#endif  // " ++ include_guard ++ "\n")

/-- Models `_GenerateExperimentsSrcForPlatform`: per-experiment constants, the
optional `kDefaultForDebugOnly` block, and the metadata table for one
platform.  `std::map::at` misses are modelled by `none`. -/
def GenerateExperimentsSrcForPlatform
    (eds : List (String × ExperimentDefinition))
    (defaultsMap : List (String × String)) (platform mode : String) :
    Option String := do
  let acc ← eds.foldlM
    (fun (acc : String × Bool) kv => do
      let e := kv.2
      let out := acc.1 ++ "const char* const description_" ++ e.name ++ " = " ++
        e.description ++ ";\n"
      let out := out ++ "const char* const additional_constraints_" ++ e.name ++
        " = " ++ e.additional_constraints_of platform ++ ";\n"
      let out :=
        if !e.requires.isEmpty then
          out ++ "const uint8_t required_experiments_" ++ e.name ++
            "[] = \x7b" ++
            String.intercalate ","
              (e.requires.map (fun req =>
                "static_cast<uint8_t>(grpc_core::kExperimentId" ++
                  SnakeToPascal req ++ ")")) ++
            "\x7d;\n"
        else out
      let dv ← mapFind defaultsMap (e.default_value platform)
      pure (out, acc.2 || (dv = "kDefaultForDebugOnly")))
    ("", false)
  let debugBlock :=
    if acc.2 then
      "#ifdef NDEBUG\nconst bool kDefaultForDebugOnly = false;\n#else\nconst bool kDefaultForDebugOnly = true;\n#endif\n"
    else ""
  let experiments_metadata_var_name :=
    if mode = "test" then "g_test_experiment_metadata" else "g_experiment_metadata"
  let rows ← eds.foldlM
    (fun out kv => do
      let e := kv.2
      let reqRef := "required_experiments_" ++
        (if e.requires.isEmpty then "nullptr"
         else String.intercalate ", " e.requires)
      let dv ← mapFind defaultsMap (e.default_value platform)
      pure (out ++ "  \x7b" ++ e.name ++ ", description_" ++ e.name ++
        ", additional_constraints_" ++ e.name ++ ", " ++ reqRef ++ ", " ++
        toString e.requires.length ++ ", " ++ dv ++ ", " ++
        (if e.allow_in_fuzzing_config then "true" else "false") ++ "\x7d,"))
    ""
  pure ("namespace \x7b\n" ++ acc.1 ++ debugBlock ++ "\x7d\n\n" ++
    "namespace grpc_core \x7b\n\n" ++
    "const ExperimentMetadata " ++ experiments_metadata_var_name ++
    "[] = \x7b\n" ++ rows ++ "\x7d;\n\n" ++
    "\x7d  // namespace grpc_core\n")

/-- The `#if defined(...)` platform chain of `_GenerateSource`. -/
def srcPlatformChain (eds : List (String × ExperimentDefinition))
    (defaultsMap : List (String × String)) (mode : String) :
    List (String × String) → Bool → Option String
  | [], _ => some ""
  | (platform, define) :: rest, first =>
    if platform = "posix" then srcPlatformChain eds defaultsMap mode rest first
    else do
      let body ← GenerateExperimentsSrcForPlatform eds defaultsMap platform mode
      let tail ← srcPlatformChain eds defaultsMap mode rest false
      pure ((if first then "#if defined(" else "elif defined(") ++ define ++
        ")\n" ++ body ++ tail)

/-- Removal of the first occurrence of a pattern from a character list
(no-op when the pattern does not occur). -/
def removeFirstSub (pat : List Char) : List Char → List Char
  | [] => []
  | c :: rest =>
    if pat.isPrefixOf (c :: rest) then (c :: rest).drop pat.length
    else c :: removeFirstSub pat rest

/-- Removal of the first `".github"` occurrence from the header include path
(`header_file_path.find(github_suffix)` + `replace`). -/
def stripGithubSuffix (header_file_path : String) : String :=
  String.mk (removeFirstSub ".github".data header_file_path.data)

/-- Models `ExperimentsOutputGenerator::_GenerateSource`.  The local
`bool any_requires;` is declared without an initializer and is only ever
assigned `true`; when no experiment has requirements its value is the
indeterminate stack content, modelled by the explicit `any_requires_seed`
parameter. -/
def GenerateSourceBody (eds : List (String × ExperimentDefinition))
    (platforms defaultsMap : List (String × String))
    (any_requires_seed : Bool) (header_file_path mode : String) :
    Option String := do
  let any_requires :=
    any_requires_seed || eds.any (fun kv => !kv.2.requires.isEmpty)
  let chain ← srcPlatformChain eds defaultsMap mode platforms true
  let posix ← GenerateExperimentsSrcForPlatform eds defaultsMap "posix" mode
  pure ("#include <grpc/support/port_platform.h>\n\n" ++
    (if any_requires then "#include <stdint.h>\n\n" else "") ++
    "#include \"" ++ stripGithubSuffix header_file_path ++ "\"\n" ++
    "#ifdef GRPC_EXPERIMENTS_ARE_FINAL\n" ++
    chain ++
    "\n#else\n" ++ posix ++ "#endif\n" ++
    "\n#endif\n")

/-- Models `GrpcGoogle3ExperimentsOutputGenerator::GenerateHeader`. -/
def Google3GenerateHeader (c : ExperimentsCompiler) (year : Int) :
    Option String := do
  let body ← GenerateHeaderBody c.experiment_definitions c.platforms_define
    c.final_return c.final_define ""
  pure (GetCopyright year ++
    PutBanner "//"
      [" Auto generated by tools/codegen/core/gen_experiments_grpc_google3.cc",
        GetGrpcCodegenPlaceholderText] ++
    body)

/-- Models `GrpcOssExperimentsOutputGenerator::GenerateHeader`. -/
def OssGenerateHeader (c : ExperimentsCompiler) (year : Int) (mode : String) :
    Option String := do
  let body ← GenerateHeaderBody c.experiment_definitions c.platforms_define
    c.final_return c.final_define mode
  pure (GetCopyright year ++
    PutBanner "//"
      [" Auto generated by tools/codegen/core/gen_experiments_grpc_oss.cc",
        GetGrpcCodegenPlaceholderText] ++
    body)

/-- Models `GrpcGoogle3ExperimentsOutputGenerator::GenerateSource`. -/
def Google3GenerateSource (c : ExperimentsCompiler) (year : Int)
    (any_requires_seed : Bool) (header_file_path : String) : Option String := do
  let body ← GenerateSourceBody c.experiment_definitions c.platforms_define
    c.defaults any_requires_seed header_file_path ""
  pure (GetCopyright year ++
    PutBanner "//"
      [" Auto generated by tools/codegen/core/gen_experiments_grpc_google3.cc"] ++
    body)

/-- Models `GrpcOssExperimentsOutputGenerator::GenerateSource`. -/
def OssGenerateSource (c : ExperimentsCompiler) (year : Int)
    (any_requires_seed : Bool) (header_file_path mode : String) :
    Option String := do
  let body ← GenerateSourceBody c.experiment_definitions c.platforms_define
    c.defaults any_requires_seed header_file_path mode
  pure (GetCopyright year ++
    PutBanner "//"
      [" Auto generated by tools/codegen/core/gen_experiments_grpc_oss.cc"] ++
    body)

/-- Models `ExperimentsCompiler::_GenerateExperimentsHdr`: mode dispatch.  `none`
models a C++ exception escaping rendering; `Except.error` is the
`absl::InvalidArgumentError` of an unsupported mode. -/
def ExperimentsCompiler.GenerateExperimentsHdrContents (c : ExperimentsCompiler)
    (year : Int) (mode : String) : Option (Except String String) :=
  if mode = "grpc_google3" then (Google3GenerateHeader c year).map Except.ok
  else if mode = "grpc_oss_production" then
    (OssGenerateHeader c year "production").map Except.ok
  else if mode = "grpc_oss_test" then
    (OssGenerateHeader c year "test").map Except.ok
  else some (Except.error ("Unsupported mode: " ++ mode))

/-- Models `ExperimentsCompiler::_GenerateExperimentsSrc`: mode dispatch. -/
def ExperimentsCompiler.GenerateExperimentsSrcContents (c : ExperimentsCompiler)
    (year : Int) (any_requires_seed : Bool) (header_file_path mode : String) :
    Option (Except String String) :=
  if mode = "grpc_google3" then
    (Google3GenerateSource c year any_requires_seed header_file_path).map
      Except.ok
  else if mode = "grpc_oss_production" then
    (OssGenerateSource c year any_requires_seed header_file_path
      "production").map Except.ok
  else if mode = "grpc_oss_test" then
    (OssGenerateSource c year any_requires_seed header_file_path "test").map
      Except.ok
  else some (Except.error ("Unsupported mode: " ++ mode))

/-- Models `ExperimentsCompiler::GenerateExperimentsHdr`: render then hand the buffer
to `_WriteToFile`.  The returned pair is the final `absl::Status` and the
list of file-write collaborator invocations `(path, contents)`;
`write_status` is the outcome of the collaborator. -/
def ExperimentsCompiler.GenerateExperimentsHdr (c : ExperimentsCompiler)
    (year : Int) (output_file mode : String) (write_status : AbslStatus) :
    Option (AbslStatus × List (String × String)) :=
  match c.GenerateExperimentsHdrContents year mode with
  | none => none
  | some (.error m) => some (.invalidArgumentError m, [])
  | some (.ok contents) => some (write_status, [(output_file, contents)])

/-- Models `ExperimentsCompiler::GenerateExperimentsSrc`: render then write. -/
def ExperimentsCompiler.GenerateExperimentsSrc (c : ExperimentsCompiler)
    (year : Int) (any_requires_seed : Bool)
    (output_file header_file_path mode : String) (write_status : AbslStatus) :
    Option (AbslStatus × List (String × String)) :=
  match c.GenerateExperimentsSrcContents year any_requires_seed header_file_path
      mode with
  | none => none
  | some (.error m) => some (.invalidArgumentError m, [])
  | some (.ok contents) => some (write_status, [(output_file, contents)])

/-- Substring test on character lists (used to state that an output or an
error message contains a given fragment). -/
def charListHasSub (pat : List Char) : List Char → Bool
  | [] => pat.isEmpty
  | c :: rest => pat.isPrefixOf (c :: rest) || charListHasSub pat rest

/-- Substring test on strings. -/
def strContainsSub (s pat : String) : Bool :=
  charListHasSub pat.data s.data

/-- Substring test through an `Option` (a failed render contains nothing). -/
def optContainsSub (o : Option String) (pat : String) : Bool :=
  match o with
  | none => false
  | some s => strContainsSub s pat

/- Concrete fixtures used by witnesses and counterexamples. -/

/-- A well-formed experiment with no requirements. -/
def fooDef : ExperimentDefinition :=
  ExperimentDefinition.make "foo" "\"A foo experiment.\"" "foo-owner"
    "2025-03-01" false true ["core_end2end_test"] []

/-- Default-token table (token → emitted expression). -/
def exDefaults : List (String × String) :=
  [("debug", "kDefaultForDebugOnly"), ("false", "false"), ("true", "true")]

/-- Platform table (platform → preprocessor guard). -/
def exPlatforms : List (String × String) :=
  [("ios", "GRPC_CFSTREAM"), ("posix", ""), ("windows", "GPR_WINDOWS")]

/-- Final-mode return-fragment table. -/
def exFinalReturn : List (String × String) :=
  [("debug", "kIsDebug"), ("false", "false"), ("true", "true")]

/-- Final-mode define-fragment table. -/
def exFinalDefine : List (String × String) :=
  [("debug", "#define "), ("false", ""), ("true", "#define ")]

/-- A compiled model holding the single experiment `foo`. -/
def cfgExample : ExperimentsCompiler :=
  { defaults := exDefaults
    platforms_define := exPlatforms
    final_return := exFinalReturn
    final_define := exFinalDefine
    bzl_list_for_defaults := []
    experiment_definitions := [("foo", fooDef)] }

/-- The same model restricted to the single implicit platform, used where a
small concrete rendering has to be evaluated inside a proof. -/
def cfgPosix : ExperimentsCompiler :=
  { cfgExample with platforms_define := [("posix", "")] }

/-- C2: an expiry parsing to November, December, or a January day before the
15th makes `IsValid` return false for every `check_expiry` (and every
current time), on any definition without a recorded error that is not the
`monitoring_experiment` special case; in particular `2024-12-01` and
`2025-01-10` are rejected and `2025-03-01` is not caught by this rule. -/
theorem c2_freeze_window_rejects :
    (∀ (d : ExperimentDefinition) (check_expiry : Bool) (now : Int)
        (y m day : Nat),
      d.error = false →
      ¬(d.name = "monitoring_experiment" ∧ d.expiry = "never-ever") →
      parseCivilDate d.expiry = some (y, m, day) →
      (m = 11 ∨ m = 12 ∨ (m = 1 ∧ day < 15)) →
      d.IsValid check_expiry now = false) ∧
    (∀ (d : ExperimentDefinition) (check_expiry : Bool) (now : Int),
      d.error = false → d.expiry = "2024-12-01" →
      d.IsValid check_expiry now = false) ∧
    (∀ (d : ExperimentDefinition) (check_expiry : Bool) (now : Int),
      d.error = false → d.expiry = "2025-01-10" →
      d.IsValid check_expiry now = false) ∧
    (∀ (d : ExperimentDefinition) (check_expiry : Bool) (now : Int),
      d.error = false → d.expiry = "2025-03-01" →
      d.IsValid check_expiry now = true) := by
  have gen : ∀ (d : ExperimentDefinition) (check_expiry : Bool) (now : Int)
      (y m day : Nat),
      d.error = false →
      ¬(d.name = "monitoring_experiment" ∧ d.expiry = "never-ever") →
      parseCivilDate d.expiry = some (y, m, day) →
      (m = 11 ∨ m = 12 ∨ (m = 1 ∧ day < 15)) →
      d.IsValid check_expiry now = false := by
    intro d check_expiry now y m day herr hmon hparse hfreeze
    simp [ExperimentDefinition.IsValid, ExperimentDefinition.IsValidLog, herr,
      hmon, hparse, hfreeze]
  refine ⟨gen, ?_, ?_, ?_⟩
  · intro d check_expiry now herr hexp
    exact gen d check_expiry now 2024 12 1 herr
      (by simp [hexp]) (by rw [hexp]; decide) (by simp)
  · intro d check_expiry now herr hexp
    exact gen d check_expiry now 2025 1 10 herr
      (by simp [hexp]) (by rw [hexp]; decide) (by simp)
  · intro d check_expiry now herr hexp
    have hparse : parseCivilDate d.expiry = some (2025, 3, 1) := by
      rw [hexp]; decide
    have hmon : ¬(d.name = "monitoring_experiment" ∧ d.expiry = "never-ever") := by
      simp [hexp]
    cases check_expiry <;>
      simp [ExperimentDefinition.IsValid, ExperimentDefinition.IsValidLog,
        herr, hmon, hparse]

/-- C2 witness: the freeze rule fires on the concrete definition with expiry
`2024-12-01`, for both values of `check_expiry`. -/
theorem c2_witness :
    ({ fooDef with expiry := "2024-12-01" }.error = false) ∧
    ({ fooDef with expiry := "2024-12-01" }.IsValid true 0 = false) ∧
    ({ fooDef with expiry := "2024-12-01" }.IsValid false 0 = false) :=
  ⟨by decide,
    c2_freeze_window_rejects.2.1 { fooDef with expiry := "2024-12-01" } true 0
      (by decide) rfl,
    c2_freeze_window_rejects.2.1 { fooDef with expiry := "2024-12-01" } false 0
      (by decide) rfl⟩

/-- C6: on a definition without a recorded error whose expiry parses and
falls outside the freeze window, `IsValid(true)` returns true for every
current time — in particular when the expiry is in the past or more than
180 days in the future; those checks only log warnings. -/
theorem c6_warnings_never_flip_validity
    (d : ExperimentDefinition) (now : Int) (y m day : Nat)
    (herr : d.error = false)
    (hparse : parseCivilDate d.expiry = some (y, m, day))
    (hfreeze : ¬(m = 11 ∨ m = 12 ∨ (m = 1 ∧ day < 15))) :
    d.IsValid true now = true := by
  by_cases hmon : d.name = "monitoring_experiment" ∧ d.expiry = "never-ever"
  · simp [ExperimentDefinition.IsValid, ExperimentDefinition.IsValidLog, herr,
      hmon]
  · simp [ExperimentDefinition.IsValid, ExperimentDefinition.IsValidLog, herr,
      hmon, hparse, hfreeze]

/-- C6 witness: a far-future expiry (`2030-06-01` seen from the epoch) and a
past expiry (`2025-03-01` seen from a late time) are both only warned
about: `IsValid(true)` still returns true. -/
theorem c6_witness :
    ({ fooDef with expiry := "2030-06-01" }.IsValid true 0 = true) ∧
    (fooDef.IsValid true 2000000000 = true) :=
  ⟨c6_warnings_never_flip_validity { fooDef with expiry := "2030-06-01" } 0
      2030 6 1 (by decide) (by decide) (by decide),
    c6_warnings_never_flip_validity fooDef 2000000000 2025 3 1 (by decide)
      (by decide) (by decide)⟩

/-- One loop body never changes `requires`. -/
theorem rolloutApplyPlatform_requires (d : ExperimentDefinition) (p v : String) :
    (rolloutApplyPlatform d p v).requires = d.requires := by
  by_cases h : d.requires.isEmpty <;> simp [rolloutApplyPlatform, h]

/-- One loop body never changes `error`. -/
theorem rolloutApplyPlatform_error (d : ExperimentDefinition) (p v : String) :
    (rolloutApplyPlatform d p v).error = d.error := by
  by_cases h : d.requires.isEmpty <;> simp [rolloutApplyPlatform, h]

/-- One loop body writes the expected entry for its platform. -/
theorem rolloutApplyPlatform_find_self (d : ExperimentDefinition) (p v : String) :
    mapFind (rolloutApplyPlatform d p v).defaults p =
      some (if d.requires.isEmpty then v else "debug") ∧
    mapFind (rolloutApplyPlatform d p v).additional_constraints p =
      some (if d.requires.isEmpty then ""
            else String.intercalate ", " d.requires) := by
  by_cases h : d.requires.isEmpty <;>
    simp [rolloutApplyPlatform, h, mapFind_mapInsert_self]

/-- One loop body leaves entries of other platforms alone. -/
theorem rolloutApplyPlatform_find_ne (d : ExperimentDefinition) (q v p : String)
    (hne : p ≠ q) :
    mapFind (rolloutApplyPlatform d q v).defaults p = mapFind d.defaults p ∧
    mapFind (rolloutApplyPlatform d q v).additional_constraints p =
      mapFind d.additional_constraints p := by
  by_cases h : d.requires.isEmpty <;>
    simp [rolloutApplyPlatform, h, mapFind_mapInsert_ne _ _ _ _ hne]

/-- The platform loop never changes `requires`. -/
theorem rolloutPlatformLoop_requires (r : RolloutSpecification) :
    ∀ (ps : List (String × String)) (d : ExperimentDefinition),
      ((rolloutPlatformLoop r d ps).2).requires = d.requires := by
  intro ps
  induction ps with
  | nil => intro d; rfl
  | cons hd rest ih =>
    intro d
    obtain ⟨p, g⟩ := hd
    cases h : rolloutResolveValue r p with
    | none => simp [rolloutPlatformLoop, h]
    | some v => simp [rolloutPlatformLoop, h, ih, rolloutApplyPlatform_requires]

/-- The platform loop leaves platforms outside its list alone. -/
theorem rolloutPlatformLoop_find_of_not_mem (r : RolloutSpecification) :
    ∀ (ps : List (String × String)) (d : ExperimentDefinition) (p : String),
      p ∉ ps.map Prod.fst →
      mapFind ((rolloutPlatformLoop r d ps).2).defaults p =
        mapFind d.defaults p ∧
      mapFind ((rolloutPlatformLoop r d ps).2).additional_constraints p =
        mapFind d.additional_constraints p := by
  intro ps
  induction ps with
  | nil => intro d p _; exact ⟨rfl, rfl⟩
  | cons hd rest ih =>
    intro d p hp
    obtain ⟨q, g⟩ := hd
    simp only [List.map_cons, List.mem_cons, not_or] at hp
    obtain ⟨hpq, hprest⟩ := hp
    cases h : rolloutResolveValue r q with
    | none => simp [rolloutPlatformLoop, h]
    | some v =>
      have happly := rolloutApplyPlatform_find_ne d q v p hpq
      have hrest := ih (rolloutApplyPlatform d q v) p hprest
      simp only [rolloutPlatformLoop, h]
      exact ⟨hrest.1.trans happly.1, hrest.2.trans happly.2⟩

/-- On a successful run, the platform loop resolves every listed platform to
the rollout value (or "debug" plus joined constraints when requirements are
present). -/
theorem rolloutPlatformLoop_find_of_mem (r : RolloutSpecification) :
    ∀ (ps : List (String × String)) (d d' : ExperimentDefinition) (p : String),
      rolloutPlatformLoop r d ps = (true, d') →
      p ∈ ps.map Prod.fst →
      ∃ v, rolloutResolveValue r p = some v ∧
        mapFind d'.defaults p =
          some (if d.requires.isEmpty then v else "debug") ∧
        mapFind d'.additional_constraints p =
          some (if d.requires.isEmpty then ""
                else String.intercalate ", " d.requires) := by
  intro ps
  induction ps with
  | nil => intro d d' p _ hp; simp at hp
  | cons hd rest ih =>
    intro d d' p h hp
    obtain ⟨q, g⟩ := hd
    cases hres : rolloutResolveValue r q with
    | none => simp [rolloutPlatformLoop, hres] at h
    | some v =>
      simp only [rolloutPlatformLoop, hres] at h
      by_cases hpr : p ∈ rest.map Prod.fst
      · obtain ⟨w, hw, hdft, hcon⟩ :=
          ih (rolloutApplyPlatform d q v) d' p h hpr
        rw [rolloutApplyPlatform_requires] at hdft hcon
        exact ⟨w, hw, hdft, hcon⟩
      · have hpq : p = q := by
          simp only [List.map_cons, List.mem_cons] at hp
          rcases hp with h1 | h2
          · exact h1
          · exact absurd h2 hpr
        subst hpq
        have hnm := rolloutPlatformLoop_find_of_not_mem r rest
          (rolloutApplyPlatform d p v) p hpr
        rw [h] at hnm
        have hself := rolloutApplyPlatform_find_self d p v
        exact ⟨v, hres, hnm.1.trans hself.1, hnm.2.trans hself.2⟩

/-- A merge with an empty requirements list leaves `requires` unchanged. -/
theorem addRollout_requires_of_no_requirements (d : ExperimentDefinition)
    (dm pm : List (String × String)) (r : RolloutSpecification)
    (hr : r.requirements = []) :
    ((d.AddRolloutSpecification dm pm r).2).requires = d.requires := by
  by_cases herr : d.error
  · simp [ExperimentDefinition.AddRolloutSpecification, herr]
  · by_cases hname : r.name ≠ d.name
    · simp [ExperimentDefinition.AddRolloutSpecification, herr, hname]
    · by_cases hempty :
        r.default_value.isEmpty && r.platform_value.isEmpty
      · simp [ExperimentDefinition.AddRolloutSpecification, herr, hname,
          hempty, hr]
      · simp [ExperimentDefinition.AddRolloutSpecification, herr, hname,
          hempty, hr, rolloutPlatformLoop_requires]

/-- C4: after a successful merge, every platform of the platform table gets
the resolved rollout value with an empty constraint when the accumulated
requirements are empty, and the forced token "debug" with the comma-joined
requirement names otherwise. -/
theorem c4_rollout_platform_resolution
    (d d' : ExperimentDefinition) (dm pm : List (String × String))
    (r : RolloutSpecification) (p : String)
    (h : d.AddRolloutSpecification dm pm r = (true, d'))
    (hp : p ∈ pm.map Prod.fst) :
    ∃ v, rolloutResolveValue r p = some v ∧
      mapFind d'.defaults p =
        some (if d'.requires.isEmpty then v else "debug") ∧
      mapFind d'.additional_constraints p =
        some (if d'.requires.isEmpty then ""
              else String.intercalate ", " d'.requires) := by
  by_cases herr : d.error
  · simp [ExperimentDefinition.AddRolloutSpecification, herr] at h
  · by_cases hname : r.name ≠ d.name
    · simp [ExperimentDefinition.AddRolloutSpecification, herr, hname] at h
    · by_cases hempty :
        r.default_value.isEmpty && r.platform_value.isEmpty
      · simp [ExperimentDefinition.AddRolloutSpecification, herr, hname,
          hempty] at h
      · rw [ExperimentDefinition.AddRolloutSpecification, if_neg herr,
          if_neg hname, if_neg hempty] at h
        have hreq : d'.requires = d.requires ++ r.requirements := by
          have h1 := rolloutPlatformLoop_requires r pm
            { d with requires := d.requires ++ r.requirements }
          rw [h] at h1
          simpa using h1
        obtain ⟨v, hv, hdft, hcon⟩ := rolloutPlatformLoop_find_of_mem r pm
          { d with requires := d.requires ++ r.requirements } d' p h hp
        refine ⟨v, hv, ?_, ?_⟩
        · simpa [hreq] using hdft
        · simpa [hreq] using hcon

/-- C4 witness: merging a uniform "true" rollout into the requirement-free
`foo` resolves platform "ios" to "true" with empty constraints. -/
theorem c4_witness :
    ∃ v,
      rolloutResolveValue
          { name := "foo", default_value := "true", platform_value := [],
            requirements := [] } "ios" = some v ∧
      mapFind ((fooDef.AddRolloutSpecification exDefaults exPlatforms
          { name := "foo", default_value := "true", platform_value := [],
            requirements := [] }).2).defaults "ios" =
        some (if ((fooDef.AddRolloutSpecification exDefaults exPlatforms
            { name := "foo", default_value := "true", platform_value := [],
              requirements := [] }).2).requires.isEmpty then v else "debug") ∧
      mapFind ((fooDef.AddRolloutSpecification exDefaults exPlatforms
          { name := "foo", default_value := "true", platform_value := [],
            requirements := [] }).2).additional_constraints "ios" =
        some (if ((fooDef.AddRolloutSpecification exDefaults exPlatforms
            { name := "foo", default_value := "true", platform_value := [],
              requirements := [] }).2).requires.isEmpty then ""
          else String.intercalate ", "
            ((fooDef.AddRolloutSpecification exDefaults exPlatforms
              { name := "foo", default_value := "true", platform_value := [],
                requirements := [] }).2).requires) :=
  c4_rollout_platform_resolution fooDef _ exDefaults exPlatforms
    { name := "foo", default_value := "true", platform_value := [],
      requirements := [] } "ios" (by decide) (by decide)

/-- An empty compiler (no experiments loaded yet). -/
def cfgEmpty : ExperimentsCompiler :=
  { defaults := exDefaults
    platforms_define := exPlatforms
    final_return := exFinalReturn
    final_define := exFinalDefine
    bzl_list_for_defaults := []
    experiment_definitions := [] }

/-- C1 counterexample: with two catalogue entries both named "foo", the map
does NOT hold the definition built from the later entry — `emplace` kept
the first one. -/
theorem c1_counterexample :
    ¬(mapFind
        ((cfgEmpty.AddExperimentDefinition
            [.map "foo" "first description" "own" "2025-03-01" false false [],
             .map "foo" "second description" "own" "2025-03-01" false false
               []]).2).experiment_definitions
        "foo" =
      some (ExperimentDefinition.make "foo" "second description" "own"
        "2025-03-01" false false [] [])) := by decide

/-- C1 amended: after AddExperimentDefinition on a catalogue with two mapping
nodes sharing a name (not previously present), the map holds the definition
built from the EARLIER entry — `std::map::emplace` inserts only when the
key is absent, so later same-name entries are silently dropped, with no
duplicate detection. -/
theorem c1_emplace_keeps_first
    (c : ExperimentsCompiler) (n d1 o1 e1 d2 o2 e2 : String)
    (up1 af1 up2 af2 : Bool) (tt1 tt2 : List String)
    (habsent : mapFind c.experiment_definitions n = none) :
    mapFind
        ((c.AddExperimentDefinition
            [.map n d1 o1 e1 up1 af1 tt1,
             .map n d2 o2 e2 up2 af2 tt2]).2).experiment_definitions n =
      some (ExperimentDefinition.make n d1 o1 e1 up1 af1 tt1 []) := by
  simp [ExperimentsCompiler.AddExperimentDefinition, mapEmplace, habsent,
    mapFind_mapInsert_self]

/-- C1 witness: the amended statement at the concrete duplicate catalogue. -/
theorem c1_witness :
    mapFind
        ((cfgEmpty.AddExperimentDefinition
            [.map "foo" "first description" "own" "2025-03-01" false false [],
             .map "foo" "second description" "own" "2025-03-01" false false
               []]).2).experiment_definitions
        "foo" =
      some (ExperimentDefinition.make "foo" "first description" "own"
        "2025-03-01" false false [] []) :=
  c1_emplace_keeps_first cfgEmpty "foo" "first description" "own" "2025-03-01"
    "second description" "own" "2025-03-01" false false false false [] []
    (by decide)

/-- C9: a rollout mapping with a non-empty `default_value` never touches the
`requires` list of the named experiment, whatever requirements the mapping lists —
the built `RolloutSpecification` carries an empty requirements vector. -/
theorem c9_default_value_discards_requirements
    (c : ExperimentsCompiler) (name dv : String)
    (pv? : Option (List (String × String))) (reqs : List String)
    (ed : ExperimentDefinition)
    (hdv : dv ≠ "")
    (hfound : mapFind c.experiment_definitions name = some ed) :
    ∃ ed',
      mapFind ((c.AddRolloutSpecification
          [.map name (some dv) pv? reqs]).2).experiment_definitions name =
        some ed' ∧
      ed'.requires = ed.requires := by
  have hkeep := addRollout_requires_of_no_requirements
    ((mapFind c.experiment_definitions name).getD defaultExperimentDefinition)
    c.defaults c.platforms_define (nodeRolloutSpec name (some dv) pv? reqs)
    rfl
  simp only [ExperimentsCompiler.AddRolloutSpecification]
  rw [if_neg (by simp)]
  by_cases hsucc :
      (((mapFind c.experiment_definitions name).getD
          defaultExperimentDefinition).AddRolloutSpecification c.defaults
        c.platforms_define (nodeRolloutSpec name (some dv) pv? reqs)).1 = true
  · simp only [hsucc, if_true, ExperimentsCompiler.AddRolloutSpecification]
    exact ⟨_, mapFind_mapInsert_self _ _ _, by rw [hkeep, hfound]; rfl⟩
  · simp only [hsucc, if_false, Bool.false_eq_true, ite_false]
    exact ⟨_, mapFind_mapInsert_self _ _ _, by rw [hkeep, hfound]; rfl⟩

/-- C9 witness: attaching a "true" uniform rollout that also lists a
requirement leaves `foo.requires` untouched. -/
theorem c9_witness :
    ∃ ed',
      mapFind ((cfgExample.AddRolloutSpecification
          [.map "foo" (some "true") none ["bar"]]).2).experiment_definitions
        "foo" = some ed' ∧
      ed'.requires = fooDef.requires :=
  c9_default_value_discards_requirements cfgExample "foo" "true" none ["bar"]
    fooDef (by decide) (by decide)

/-- C7: a rollout mapping naming an experiment absent from the catalogue
makes the AddRolloutSpecification of the compiler fail with an
`InvalidArgumentError` whose message names that experiment. -/
theorem c7_unknown_experiment_fails
    (c : ExperimentsCompiler) (name : String) (dv? : Option String)
    (pv? : Option (List (String × String))) (reqs : List String)
    (rest : List RolloutNode)
    (habsent : mapFind c.experiment_definitions name = none) :
    ∃ pre,
      (c.AddRolloutSpecification (.map name dv? pv? reqs :: rest)).1 =
        .invalidArgumentError (pre ++ name) := by
  simp only [ExperimentsCompiler.AddRolloutSpecification]
  by_cases hdef : dv? = none ∧ pv? = none
  · rw [if_pos hdef]
    exact ⟨"No default value or platform value for rollout: ", rfl⟩
  · rw [if_neg hdef]
    have herr :
        ((mapFind c.experiment_definitions name).getD
          defaultExperimentDefinition).error = true := by
      rw [habsent]
      decide
    have hfail :
        (((mapFind c.experiment_definitions name).getD
            defaultExperimentDefinition).AddRolloutSpecification c.defaults
          c.platforms_define (nodeRolloutSpec name dv? pv? reqs)).1 = false := by
      rw [ExperimentDefinition.AddRolloutSpecification, if_pos herr]
    rw [if_neg (by simp [hfail])]
    exact ⟨"Failed to add rollout specification for experiment: ", rfl⟩

/-- C7 witness: a rollout for the unknown experiment "ghost" fails with a
message naming it. -/
theorem c7_witness :
    ∃ pre,
      (cfgExample.AddRolloutSpecification
          [.map "ghost" (some "true") none []]).1 =
        .invalidArgumentError (pre ++ "ghost") :=
  c7_unknown_experiment_fails cfgExample "ghost" (some "true") none [] []
    (by decide)

/-- C10: a failed rollout merge for an unknown experiment name (on a mapping
that defines `default_value` or `platform_value`) still mutates the
compiler: a default-constructed, error-flagged `ExperimentDefinition` with
empty name, description, owner and expiry stays in the map under that name
after the error return. -/
theorem c10_failed_rollout_inserts_default
    (c : ExperimentsCompiler) (name : String) (dv? : Option String)
    (pv? : Option (List (String × String))) (reqs : List String)
    (habsent : mapFind c.experiment_definitions name = none)
    (hdef : ¬(dv? = none ∧ pv? = none)) :
    (c.AddRolloutSpecification [.map name dv? pv? reqs]).1 ≠ .ok ∧
    mapFind ((c.AddRolloutSpecification
        [.map name dv? pv? reqs]).2).experiment_definitions name =
      some defaultExperimentDefinition ∧
    defaultExperimentDefinition.error = true ∧
    defaultExperimentDefinition.name = "" ∧
    defaultExperimentDefinition.description = "" ∧
    defaultExperimentDefinition.owner = "" ∧
    defaultExperimentDefinition.expiry = "" := by
  have herr :
      ((mapFind c.experiment_definitions name).getD
        defaultExperimentDefinition).error = true := by
    rw [habsent]
    decide
  have hres :
      ((mapFind c.experiment_definitions name).getD
          defaultExperimentDefinition).AddRolloutSpecification c.defaults
        c.platforms_define (nodeRolloutSpec name dv? pv? reqs) =
      (false,
        (mapFind c.experiment_definitions name).getD
          defaultExperimentDefinition) := by
    rw [ExperimentDefinition.AddRolloutSpecification, if_pos herr]
  refine ⟨?_, ?_, by decide, by decide, by decide, by decide, by decide⟩
  · simp [ExperimentsCompiler.AddRolloutSpecification, hdef, hres]
  · simp only [ExperimentsCompiler.AddRolloutSpecification]
    rw [if_neg hdef]
    rw [hres]
    simp only [Bool.false_eq_true, ite_false]
    rw [habsent]
    exact mapFind_mapInsert_self _ _ _

/-- C10 witness: after the failed rollout for "ghost", the map holds the
default-constructed error definition under "ghost". -/
theorem c10_witness :
    (cfgExample.AddRolloutSpecification
        [.map "ghost" (some "true") none []]).1 ≠ .ok ∧
    mapFind ((cfgExample.AddRolloutSpecification
        [.map "ghost" (some "true") none []]).2).experiment_definitions
      "ghost" = some defaultExperimentDefinition ∧
    defaultExperimentDefinition.error = true ∧
    defaultExperimentDefinition.name = "" ∧
    defaultExperimentDefinition.description = "" ∧
    defaultExperimentDefinition.owner = "" ∧
    defaultExperimentDefinition.expiry = "" :=
  c10_failed_rollout_inserts_default cfgExample "ghost" (some "true") none []
    (by decide) (by simp)

/-- C5: any mode other than `grpc_google3`, `grpc_oss_production` and
`grpc_oss_test` makes both GenerateExperimentsHdr and GenerateExperimentsSrc
return the unsupported-mode error, with the file-write collaborator never
invoked (the write list is empty). -/
theorem c5_unsupported_mode_no_write
    (c : ExperimentsCompiler) (year : Int) (seed : Bool)
    (hdr_file src_file header_file_path mode : String)
    (write_status : AbslStatus)
    (h1 : mode ≠ "grpc_google3") (h2 : mode ≠ "grpc_oss_production")
    (h3 : mode ≠ "grpc_oss_test") :
    c.GenerateExperimentsHdr year hdr_file mode write_status =
      some (.invalidArgumentError ("Unsupported mode: " ++ mode), []) ∧
    c.GenerateExperimentsSrc year seed src_file header_file_path mode
        write_status =
      some (.invalidArgumentError ("Unsupported mode: " ++ mode), []) := by
  constructor <;>
    simp [ExperimentsCompiler.GenerateExperimentsHdr,
      ExperimentsCompiler.GenerateExperimentsSrc,
      ExperimentsCompiler.GenerateExperimentsHdrContents,
      ExperimentsCompiler.GenerateExperimentsSrcContents, h1, h2, h3]

/-- C5 witness: mode "bogus_mode" fails both generators without a write. -/
theorem c5_witness :
    cfgExample.GenerateExperimentsHdr 2025 "experiments.h" "bogus_mode" .ok =
      some (.invalidArgumentError ("Unsupported mode: " ++ "bogus_mode"),
        []) ∧
    cfgExample.GenerateExperimentsSrc 2025 false "experiments.cc"
        "src/core/lib/experiments/experiments.h" "bogus_mode" .ok =
      some (.invalidArgumentError ("Unsupported mode: " ++ "bogus_mode"),
        []) :=
  c5_unsupported_mode_no_write cfgExample 2025 false "experiments.h"
    "experiments.cc" "src/core/lib/experiments/experiments.h" "bogus_mode"
    .ok (by decide) (by decide) (by decide)

/-- C8: header rendering is a deterministic function of the compiled state
and the banner year: two compilers agreeing on the experiment map, the
platform table and the final-mode tables produce byte-identical header
output for the same mode and year — in particular rendering twice from one
compiled model gives identical bytes. -/
theorem c8_header_determinism
    (c1 c2 : ExperimentsCompiler) (year : Int) (mode : String)
    (heds : c1.experiment_definitions = c2.experiment_definitions)
    (hplat : c1.platforms_define = c2.platforms_define)
    (hret : c1.final_return = c2.final_return)
    (hdef : c1.final_define = c2.final_define) :
    c1.GenerateExperimentsHdrContents year mode =
      c2.GenerateExperimentsHdrContents year mode := by
  simp only [ExperimentsCompiler.GenerateExperimentsHdrContents,
    Google3GenerateHeader, OssGenerateHeader, heds, hplat, hret, hdef]

/-- C8 witness: two renders of the example model agree. -/
theorem c8_witness :
    cfgExample.GenerateExperimentsHdrContents 2025 "grpc_oss_production" =
      cfgExample.GenerateExperimentsHdrContents 2025 "grpc_oss_production" :=
  c8_header_determinism cfgExample cfgExample 2025 "grpc_oss_production" rfl
    rfl rfl rfl

/-- C3 (code bug): `bool any_requires;` in `_GenerateSource` is declared
without an initializer and is only assigned when some experiment has
requirements; when none has, the generated text depends on the
indeterminate value read from the stack (modelled by the seed argument).
On a model whose only experiment has no requirements, seed `true` makes the
`#include <stdint.h>` line appear even though the claim requires it to be
absent, while seed `false` leaves it out of an otherwise successful
render. -/
theorem c3_uninitialized_any_requires :
    (cfgPosix.experiment_definitions.all
        (fun kv => kv.2.requires.isEmpty) = true) ∧
    optContainsSub
        (GenerateSourceBody cfgPosix.experiment_definitions
          cfgPosix.platforms_define cfgPosix.defaults true
          "src/core/lib/experiments/experiments.h" "")
        "#include <stdint.h>" = true ∧
    optContainsSub
        (GenerateSourceBody cfgPosix.experiment_definitions
          cfgPosix.platforms_define cfgPosix.defaults false
          "src/core/lib/experiments/experiments.h" "")
        "#include <stdint.h>" = false ∧
    (GenerateSourceBody cfgPosix.experiment_definitions
        cfgPosix.platforms_define cfgPosix.defaults false
        "src/core/lib/experiments/experiments.h" "").isSome = true := by
  set_option maxRecDepth 8000 in decide

end GrpcCore
